import Mathlib

/-!
Verification of the arrears/ledger computation engine of the academy
management application (`src/academy_management2/app.py`).

Monetary amounts are modelled as exact rationals (`ℚ`): the spec states the
core works on unrounded decimal values and returns them unrounded.  Dates are
modelled as (year, month, day) triples of integers; the engine only ever reads
the year and month components.  Database access is modelled by passing the
rows the queries would return (per obligor: the monthly amount, the anchor
date, the summed payment total, and the most recent payment date) as explicit
inputs, following the collaborator contract in the spec.
-/

namespace Academy

/-- Calendar date as stored in the `date_added` / `payment_date` columns. -/
structure Date where
  year : Int
  month : Int
  day : Int
deriving DecidableEq

/-- Strict chronological order on dates (year, then month, then day). -/
def dateBefore (a b : Date) : Bool :=
  a.year < b.year ||
    (a.year == b.year &&
      (a.month < b.month || (a.month == b.month && a.day < b.day)))

/-- Period arithmetic of `app.py` lines 290-291 (also 570-571, 847-848,
896-897): `((now.year - date_added.year) * 12 + now.month - date_added.month) + 1`. -/
def monthsElapsed (anchor reference : Date) : Int :=
  (reference.year - anchor.year) * 12 + (reference.month - anchor.month) + 1

/-- Python `int()` applied to a rational: truncation toward zero. -/
def pyInt (q : ℚ) : Int :=
  if 0 ≤ q then ⌊q⌋ else ⌈q⌉

/-- The four derived fields computed per obligor (lines 294-297 / 574-577). -/
structure LedgerResult where
  total_due : ℚ
  pending_amount : ℚ
  paid_months : Int
  pending_months : Int
deriving DecidableEq

/-- Ledger Engine: lines 293-297 of `app.py` with the elapsed-period count
taken as an input: `total_due = monthly_fee * months_enrolled`,
`pending_amount = total_due - total_paid`,
`paid_months = int(total_paid / monthly_fee) if monthly_fee > 0 else 0`,
`pending_months = months_enrolled - paid_months`. -/
def evaluate (monthly_fee : ℚ) (months_enrolled : Int) (total_paid : ℚ) :
    LedgerResult :=
  let total_due := monthly_fee * (months_enrolled : ℚ)
  let pending_amount := total_due - total_paid
  let paid_months := if 0 < monthly_fee then pyInt (total_paid / monthly_fee) else 0
  let pending_months := months_enrolled - paid_months
  ⟨total_due, pending_amount, paid_months, pending_months⟩

/-- The per-student ledger block, `app.py` lines 290-297: computes
`months_enrolled` from the enrollment date and the current date, then the four
derived fields. -/
def studentLedger (now : Date) (monthly_fee : ℚ) (date_added : Date)
    (total_paid : ℚ) : LedgerResult :=
  let months_enrolled := monthsElapsed date_added now
  let total_due := monthly_fee * (months_enrolled : ℚ)
  let pending_amount := total_due - total_paid
  let paid_months := if 0 < monthly_fee then pyInt (total_paid / monthly_fee) else 0
  let pending_months := months_enrolled - paid_months
  ⟨total_due, pending_amount, paid_months, pending_months⟩

/-- The per-teacher ledger block, `app.py` lines 570-577: computes
`months_employed` from the hire date and the current date, then the four
derived fields from `monthly_salary` and the summed salary payments. -/
def teacherLedger (now : Date) (monthly_salary : ℚ) (date_added : Date)
    (total_paid : ℚ) : LedgerResult :=
  let months_employed := monthsElapsed date_added now
  let total_due := monthly_salary * (months_employed : ℚ)
  let pending_amount := total_due - total_paid
  let paid_months := if 0 < monthly_salary then pyInt (total_paid / monthly_salary) else 0
  let pending_months := months_employed - paid_months
  ⟨total_due, pending_amount, paid_months, pending_months⟩

/-- A student row as supplied by the Persistence Gateway to the engine: the
columns of the `students` table that the ledger code reads, together with the
two per-student aggregates the queries compute before the arithmetic runs
(`SELECT SUM(amount) ...` and `SELECT MAX(payment_date) ...`, `app.py`
lines 884-894). -/
structure StudentRow where
  name : String
  className : String
  monthly_fee : ℚ
  date_added : Date
  total_paid : ℚ
  last_payment : Option Date
deriving DecidableEq

/-- The ledger block applied to one student row. -/
def ledgerOf (now : Date) (s : StudentRow) : LedgerResult :=
  studentLedger now s.monthly_fee s.date_added s.total_paid

/-- One entry of the defaulters list built by `reminders` (lines 906-913):
the student's identifying fields plus `pending_months`, `pending_amount` and
the date of the most recent payment (`None` when no payment is recorded). -/
structure DefaulterEntry where
  name : String
  className : String
  monthly_fee : ℚ
  pending_months : Int
  pending_amount : ℚ
  last_payment : Option Date
deriving DecidableEq

/-- The annotation `reminders` attaches to a student that is kept. -/
def toDefaulterEntry (now : Date) (s : StudentRow) : DefaulterEntry :=
  ⟨s.name, s.className, s.monthly_fee, (ledgerOf now s).pending_months,
    (ledgerOf now s).pending_amount, s.last_payment⟩

/-- The filter condition of line 905: `pending_months > 0`. -/
def isDefaulter (now : Date) (s : StudentRow) : Bool :=
  decide (0 < (ledgerOf now s).pending_months)

/-- The `/reminders` loop, `app.py` lines 879-914: walks the student rows in
listing order, recomputes the ledger fields for each, appends an annotated
entry whenever `pending_months > 0`, and accumulates the grand total of
`pending_amount` over exactly the appended entries. -/
def reminders (now : Date) : List StudentRow → List DefaulterEntry × ℚ
  | [] => ([], 0)
  | student :: rest =>
    let r := ledgerOf now student
    let next := reminders now rest
    if 0 < r.pending_months then
      (⟨student.name, student.className, student.monthly_fee, r.pending_months,
         r.pending_amount, student.last_payment⟩ :: next.1,
       r.pending_amount + next.2)
    else next

/-- The inner accumulation loop of `/reports`, `app.py` lines 835-850: for the
students of one class, totals the collected payments and the pending amounts
(`total_collected += paid`; `total_pending += (total_due - paid)`). -/
def collectTotals (now : Date) : List StudentRow → ℚ × ℚ
  | [] => (0, 0)
  | student :: rest =>
    let next := collectTotals now rest
    let months_enrolled := monthsElapsed student.date_added now
    let total_due := student.monthly_fee * (months_enrolled : ℚ)
    (student.total_paid + next.1, (total_due - student.total_paid) + next.2)

/-- One row of the class summary built by `/reports` (lines 853-858). -/
structure ClassSummary where
  className : String
  students : Nat
  collected : ℚ
  pending : ℚ
deriving DecidableEq

/-- The fixed curriculum-grade ordering of classes (`app.py` lines 820-821,
also 312-313). -/
def classes : List String :=
  ["5th Grade", "6th Grade", "7th Grade", "8th Grade", "9th Grade",
   "10th Grade", "11th Grade (1st Year)", "12th Grade (2nd Year)"]

/-- The `/reports` loop, `app.py` lines 823-858: for each class name in the
given order, selects that class's students, totals their payments and pending
amounts, and appends a summary row only when the class has at least one
student. -/
def reports (now : Date) (ss : List StudentRow) : List String → List ClassSummary
  | [] => []
  | class_name :: rest =>
    let members := ss.filter (fun s => s.className == class_name)
    let totals := collectTotals now members
    let next := reports now ss rest
    if 0 < members.length then
      ⟨class_name, members.length, totals.1, totals.2⟩ :: next
    else next

/-! ### Helper lemmas -/

/-- The reminders loop is the filter of the input by `pending_months > 0`,
annotated, together with the sum of `pending_amount` over the kept rows. -/
theorem reminders_eq_filter_map (now : Date) (ss : List StudentRow) :
    reminders now ss =
      ((ss.filter (isDefaulter now)).map (toDefaulterEntry now),
       ((ss.filter (isDefaulter now)).map
         fun s => (ledgerOf now s).pending_amount).sum) := by
  induction ss with
  | nil => rfl
  | cons s rest ih =>
    by_cases h : 0 < (ledgerOf now s).pending_months
    · simp [reminders, List.filter_cons, isDefaulter, h, ih, toDefaulterEntry]
    · simp [reminders, List.filter_cons, isDefaulter, h, ih]

/-- The inner reports loop totals are the sums of the payment totals and of
the pending amounts of the rows it walks. -/
theorem collectTotals_eq (now : Date) (l : List StudentRow) :
    collectTotals now l =
      ((l.map StudentRow.total_paid).sum,
       (l.map fun s => (ledgerOf now s).pending_amount).sum) := by
  induction l with
  | nil => rfl
  | cons s rest ih => simp [collectTotals, ih, ledgerOf, studentLedger]

/-! ### Sample data used by witnesses -/

/-- A reference "now" snapshot: 2024-05-10. -/
def refNow : Date := ⟨2024, 5, 10⟩

/-- A student enrolled 2024-01-15 (5 elapsed months at `refNow`) with fee 1000
and 3000 paid: 3 paid months, 2 pending months. -/
def aliRow : StudentRow :=
  ⟨"Ali", "5th Grade", 1000, ⟨2024, 1, 15⟩, 3000, some ⟨2024, 4, 1⟩⟩

/-- A student with a zero monthly fee, no payment recorded, enrolled
2024-01-15 (5 elapsed months at `refNow`). -/
def zeroFeeRow : StudentRow :=
  ⟨"Zed", "5th Grade", 0, ⟨2024, 1, 15⟩, 0, none⟩

/-! ### Claims -/

/-- C1: for every obligation amount, elapsed-period count and cumulative paid
total, `evaluate` returns `total_due = obligation_amount * elapsed_periods`
and `pending_amount = total_due - cumulative_paid`; the pending amount is
signed and never clamped: it is negative whenever the cumulative paid total
exceeds the total due. -/
theorem evaluate_total_due_pending_amount_signed (monthly_fee : ℚ)
    (months_enrolled : Int) (total_paid : ℚ) :
    (evaluate monthly_fee months_enrolled total_paid).total_due =
        monthly_fee * (months_enrolled : ℚ) ∧
    (evaluate monthly_fee months_enrolled total_paid).pending_amount =
        monthly_fee * (months_enrolled : ℚ) - total_paid ∧
    (monthly_fee * (months_enrolled : ℚ) < total_paid →
      (evaluate monthly_fee months_enrolled total_paid).pending_amount < 0) := by
  refine ⟨rfl, rfl, fun h => ?_⟩
  show monthly_fee * (months_enrolled : ℚ) - total_paid < 0
  exact sub_neg.mpr h

/-- C1 witness: an obligor owing 2000 over 2 months who paid 2500 has a
negative pending amount. -/
theorem evaluate_total_due_pending_amount_signed_witness :
    (evaluate 1000 2 2500).pending_amount < 0 :=
  (evaluate_total_due_pending_amount_signed 1000 2 2500).2.2 (by norm_num)

/-- C2: for every nonnegative cumulative paid total, `paid_months` is the
floor of `total_paid / monthly_fee` when the fee is positive, and 0 when the
fee is zero (the division guard takes the zero branch). -/
theorem evaluate_paid_months_floor (monthly_fee total_paid : ℚ)
    (months_enrolled : Int) (hpaid : 0 ≤ total_paid) :
    (0 < monthly_fee →
      (evaluate monthly_fee months_enrolled total_paid).paid_months =
        ⌊total_paid / monthly_fee⌋) ∧
    (monthly_fee = 0 →
      (evaluate monthly_fee months_enrolled total_paid).paid_months = 0) := by
  constructor
  · intro hfee
    show (if 0 < monthly_fee then pyInt (total_paid / monthly_fee) else 0) = _
    rw [if_pos hfee]
    unfold pyInt
    rw [if_pos (div_nonneg hpaid hfee.le)]
  · intro hfee
    show (if 0 < monthly_fee then pyInt (total_paid / monthly_fee) else 0) = 0
    rw [if_neg (by simp [hfee])]

/-- C2 witness: fee 1000 with 3000 paid gives exactly 3 paid months. -/
theorem evaluate_paid_months_floor_witness :
    (evaluate 1000 5 3000).paid_months = 3 := by
  have h := (evaluate_paid_months_floor 1000 3000 5 (by norm_num)).1 (by norm_num)
  rw [h]
  norm_num

/-- C4: `monthsElapsed` is
`(reference.year - anchor.year) * 12 + (reference.month - anchor.month) + 1`,
is independent of the day-of-month of the anchor (two anchors in the same
calendar month give the same result), and the scenario anchor 2024-01-15 with
reference 2024-03-01 yields 3. -/
theorem monthsElapsed_formula_day_independent :
    (∀ anchor reference : Date,
      monthsElapsed anchor reference =
        (reference.year - anchor.year) * 12 +
          (reference.month - anchor.month) + 1) ∧
    (∀ (y m d d' : Int) (reference : Date),
      monthsElapsed ⟨y, m, d⟩ reference = monthsElapsed ⟨y, m, d'⟩ reference) ∧
    monthsElapsed ⟨2024, 1, 15⟩ ⟨2024, 3, 1⟩ = 3 :=
  ⟨fun _ _ => rfl, fun _ _ _ _ _ => rfl, by decide⟩

/-- C9: `evaluate` is deterministic — two invocations with identical inputs
return identical results in all four fields. -/
theorem evaluate_deterministic (f : ℚ) (e : Int) (p f' : ℚ) (e' : Int) (p' : ℚ)
    (hf : f = f') (he : e = e') (hp : p = p') :
    evaluate f e p = evaluate f' e' p' := by
  subst hf; subst he; subst hp; rfl

/-- C9 witness: determinism applied at a concrete input. -/
theorem evaluate_deterministic_witness :
    evaluate 1000 5 3000 = evaluate 1000 5 3000 :=
  evaluate_deterministic 1000 5 3000 1000 5 3000 rfl rfl rfl

/-- C10: the per-student ledger block (lines 290-297) and the per-teacher
ledger block (lines 570-577) are the same function of the monthly amount, the
anchor date and the cumulative paid total, and both equal `evaluate` applied
to the elapsed months of the anchor date. -/
theorem studentLedger_eq_teacherLedger (now : Date) (amount : ℚ)
    (anchor : Date) (paid : ℚ) :
    studentLedger now amount anchor paid =
        evaluate amount (monthsElapsed anchor now) paid ∧
    teacherLedger now amount anchor paid =
        evaluate amount (monthsElapsed anchor now) paid ∧
    studentLedger now amount anchor paid = teacherLedger now amount anchor paid :=
  ⟨rfl, rfl, rfl⟩

/-- C3: `pending_months = months_enrolled - paid_months`, and a student's
annotated entry appears in the defaulters list exactly when its pending-month
count is strictly positive; in particular an overpaid student with a
non-positive pending-month count never appears. -/
theorem defaulters_mem_iff_pending_months_pos (now : Date) (ss : List StudentRow)
    (s : StudentRow) (monthly_fee : ℚ) (months_enrolled : Int) (total_paid : ℚ) :
    ((evaluate monthly_fee months_enrolled total_paid).pending_months =
      months_enrolled -
        (evaluate monthly_fee months_enrolled total_paid).paid_months) ∧
    (toDefaulterEntry now s ∈ (reminders now ss).1 →
      0 < (ledgerOf now s).pending_months) ∧
    (s ∈ ss → 0 < (ledgerOf now s).pending_months →
      toDefaulterEntry now s ∈ (reminders now ss).1) := by
  refine ⟨rfl, ?_, ?_⟩
  · intro hmem
    rw [reminders_eq_filter_map] at hmem
    obtain ⟨s', hs', heq⟩ := List.mem_map.mp hmem
    have hdef := of_decide_eq_true (List.mem_filter.mp hs').2
    have hpm := congrArg DefaulterEntry.pending_months heq
    simp only [toDefaulterEntry] at hpm
    exact hpm ▸ hdef
  · intro hs hpos
    rw [reminders_eq_filter_map]
    exact List.mem_map_of_mem _
      (List.mem_filter.mpr ⟨hs, decide_eq_true hpos⟩)

/-- C3 witness: the student `aliRow` has 2 pending months at `refNow` and is
listed among the defaulters. -/
theorem defaulters_mem_iff_pending_months_pos_witness :
    toDefaulterEntry refNow aliRow ∈ (reminders refNow [aliRow]).1 :=
  (defaulters_mem_iff_pending_months_pos refNow [aliRow] aliRow 0 0 0).2.2
    (List.mem_singleton.mpr rfl)
    (by norm_num [ledgerOf, studentLedger, monthsElapsed, pyInt, aliRow, refNow])

/-- C5 counterexample: a student with a zero monthly fee and no payments,
five months after enrollment, IS listed as a defaulter (with five pending
months and a zero pending amount), contradicting the claim that a
zero-obligation obligor never appears in the defaulters list. -/
theorem zero_fee_student_listed_as_defaulter :
    zeroFeeRow.monthly_fee = 0 ∧
    (reminders refNow [zeroFeeRow]).1 =
      [⟨"Zed", "5th Grade", 0, 5, 0, none⟩] := by
  constructor
  · rfl
  · norm_num [reminders, ledgerOf, studentLedger, monthsElapsed, pyInt,
      zeroFeeRow, refNow]

/-- C5 amended: when the monthly fee is zero the engine does NOT treat the
obligation as paid: `paid_months = 0`, `pending_months` equals the elapsed
month count, `pending_amount = -total_paid`, and whenever the elapsed month
count is positive the student appears in the defaulters list. -/
theorem zero_fee_pending_months_eq_elapsed (now : Date) (ss : List StudentRow)
    (s : StudentRow) (hfee : s.monthly_fee = 0) :
    (ledgerOf now s).paid_months = 0 ∧
    (ledgerOf now s).pending_months = monthsElapsed s.date_added now ∧
    (ledgerOf now s).pending_amount = -s.total_paid ∧
    (s ∈ ss → 0 < monthsElapsed s.date_added now →
      toDefaulterEntry now s ∈ (reminders now ss).1) := by
  have hpaid : (ledgerOf now s).paid_months = 0 := by
    simp [ledgerOf, studentLedger, hfee]
  have hpend : (ledgerOf now s).pending_months = monthsElapsed s.date_added now := by
    simp [ledgerOf, studentLedger, hfee]
  refine ⟨hpaid, hpend, ?_, ?_⟩
  · simp [ledgerOf, studentLedger, hfee]
  · intro hs hpos
    rw [reminders_eq_filter_map]
    exact List.mem_map_of_mem _
      (List.mem_filter.mpr ⟨hs, decide_eq_true (hpend ▸ hpos)⟩)

/-- C5 amended witness: the zero-fee student `zeroFeeRow` appears in the
defaulters list at `refNow`. -/
theorem zero_fee_pending_months_eq_elapsed_witness :
    toDefaulterEntry refNow zeroFeeRow ∈ (reminders refNow [zeroFeeRow]).1 :=
  (zero_fee_pending_months_eq_elapsed refNow [zeroFeeRow] zeroFeeRow rfl).2.2.2
    (List.mem_singleton.mpr rfl)
    (by norm_num [zeroFeeRow, refNow, monthsElapsed])

/-- C6 counterexample: the reference date 2024-01-05 strictly precedes the
anchor date 2024-01-20, yet `monthsElapsed` returns 1, which is positive —
the claim that any reference preceding the anchor yields a non-positive
result fails for a same-month earlier reference. -/
theorem same_month_earlier_reference_positive_elapsed :
    dateBefore ⟨2024, 1, 5⟩ ⟨2024, 1, 20⟩ = true ∧
    monthsElapsed ⟨2024, 1, 20⟩ ⟨2024, 1, 5⟩ = 1 := by decide

/-- C6 amended: when the reference date lies in a calendar month strictly
before the anchor date's month, `monthsElapsed` returns a non-positive value
as-is, and `evaluate` applied to that non-positive count returns the
mathematically consistent result (all four field equations hold) rather than
failing. -/
theorem monthsElapsed_nonpos_of_month_before (anchor reference : Date)
    (monthly_fee total_paid : ℚ)
    (h : reference.year * 12 + reference.month <
      anchor.year * 12 + anchor.month) :
    monthsElapsed anchor reference ≤ 0 ∧
    (evaluate monthly_fee (monthsElapsed anchor reference) total_paid).total_due =
      monthly_fee * ((monthsElapsed anchor reference : Int) : ℚ) ∧
    (evaluate monthly_fee (monthsElapsed anchor reference) total_paid).pending_amount =
      monthly_fee * ((monthsElapsed anchor reference : Int) : ℚ) - total_paid ∧
    (evaluate monthly_fee (monthsElapsed anchor reference) total_paid).pending_months =
      monthsElapsed anchor reference -
        (evaluate monthly_fee (monthsElapsed anchor reference) total_paid).paid_months := by
  refine ⟨?_, rfl, rfl, rfl⟩
  unfold monthsElapsed
  omega

/-- C6 amended witness: anchor 2024-05-01 with reference 2024-01-01 yields a
non-positive elapsed count. -/
theorem monthsElapsed_nonpos_of_month_before_witness :
    monthsElapsed ⟨2024, 5, 1⟩ ⟨2024, 1, 1⟩ ≤ 0 :=
  (monthsElapsed_nonpos_of_month_before ⟨2024, 5, 1⟩ ⟨2024, 1, 1⟩ 100 50
    (by decide)).1

/-- C7: the defaulters page returns exactly the students with a positive
pending-month count, in the underlying listing order (the output list is the
annotated filter of the input list), each annotated with its pending months,
pending amount and most recent payment date (`none` when no payment is
recorded), and the returned grand total is the sum of `pending_amount` over
exactly the returned entries. -/
theorem reminders_filter_map_sum (now : Date) (ss : List StudentRow) :
    (reminders now ss).1 =
      (ss.filter (isDefaulter now)).map (toDefaulterEntry now) ∧
    (∀ s : StudentRow, toDefaulterEntry now s =
      ⟨s.name, s.className, s.monthly_fee, (ledgerOf now s).pending_months,
        (ledgerOf now s).pending_amount, s.last_payment⟩) ∧
    (reminders now ss).2 =
      (((reminders now ss).1).map DefaulterEntry.pending_amount).sum := by
  refine ⟨?_, fun _ => rfl, ?_⟩
  · rw [reminders_eq_filter_map]
  · rw [reminders_eq_filter_map]
    simp only [List.map_map]
    rfl

/-- C8: `reports` partitions the students by class name, emits the classes in
the caller-supplied fixed curriculum-grade order (which is not the
alphabetical order of the class names), omits every class with zero members,
and reports for each emitted class its member count, the sum of the members'
payment totals, and the sum of the members' pending amounts. -/
theorem reports_filterMap_characterization (now : Date) (ss : List StudentRow)
    (cls : List String) :
    reports now ss cls =
      cls.filterMap (fun class_name =>
        let members := ss.filter (fun s => s.className == class_name)
        if 0 < members.length then
          some ⟨class_name, members.length,
                (members.map StudentRow.total_paid).sum,
                (members.map fun s => (ledgerOf now s).pending_amount).sum⟩
        else none) ∧
    ¬ List.Sorted (fun a b : String => a.toList ≤ b.toList) classes := by
  constructor
  · induction cls with
    | nil => rfl
    | cons cn rest ih =>
      simp only [reports, List.filterMap_cons]
      by_cases h : 0 < (ss.filter (fun s => s.className == cn)).length
      · simp only [if_pos h, collectTotals_eq, ih]
      · simp only [if_neg h, ih]
  · intro hsorted
    have h45 : "9th Grade".toList ≤ "10th Grade".toList :=
      List.pairwise_iff_get.mp hsorted ⟨4, by decide⟩ ⟨5, by decide⟩ (by decide)
    exact absurd h45 (by decide)

/-- C8 witness: with the single student `aliRow` (class "5th Grade", 5
elapsed months, fee 1000, 3000 paid) the report is a single row for
"5th Grade" with one member, 3000 collected and 2000 pending; the seven empty
classes are omitted. -/
theorem reports_filterMap_characterization_witness :
    reports refNow [aliRow] classes = [⟨"5th Grade", 1, 3000, 2000⟩] := by
  rw [(reports_filterMap_characterization refNow [aliRow] classes).1]
  simp only [classes, List.filterMap_cons, List.filterMap_nil, List.filter_cons,
    List.filter_nil]
  simp [aliRow, refNow, ledgerOf, studentLedger, monthsElapsed, pyInt]
  norm_num

end Academy
